import Mathlib

set_option linter.unusedVariables false

/-!
Shallow embedding of the peppo-whatsapp-chatbot message-processing pipeline:
the dialog engine (`BotHandler.handleStep`), the generation gateway
(`BotHandler.callCustomAPI`), the persistence gateway (`DatabaseService`
queries modelled over Postgres list-of-row tables together with the unique
indexes created by `initializeDatabase`), the per-message orchestrator
(`BotHandler.processMessage`), and the webhook ingestion handlers of both
servers.  All definitions are translated from the JavaScript source; the
theorems at the end settle the specification claims.
-/

namespace Chatbot

/-! ## JavaScript string primitives -/

/-- `needle` is a prefix of `haystack` (helper for `String.prototype.includes`). -/
def startsWithChars : List Char → List Char → Bool
  | [], _ => true
  | _ :: _, [] => false
  | a :: as, b :: bs => a == b && startsWithChars as bs

/-- `needle` occurs contiguously inside `haystack`. -/
def hasSubChars (needle : List Char) : List Char → Bool
  | [] => startsWithChars needle []
  | c :: cs => startsWithChars needle (c :: cs) || hasSubChars needle cs

/-- JS `s.includes(pat)`: literal, case-sensitive substring test. -/
def jsIncludes (s pat : String) : Bool :=
  hasSubChars pat.toList s.toList

/-- JS `s.toLowerCase()` (ASCII case mapping, which covers every string the
bot compares). -/
def jsToLowerCase (s : String) : String :=
  String.mk (s.toList.map Char.toLower)

/-! ## JS objects used as session payloads

A session payload (`session_data`) is a JS object; the only key the bot ever
writes is `service`, via an object spread `{...sessionData, service: v}`.
We model objects as association lists; the spread-with-override keeps an
existing key in place (updated) and appends a fresh key. -/

abbrev SessionData := List (String × String)

/-- JS `{...o, k: v}`. -/
def objSet (o : SessionData) (k v : String) : SessionData :=
  if o.any (fun p => p.1 == k) then
    o.map (fun p => if p.1 == k then (k, v) else p)
  else
    o ++ [(k, v)]

/-! ## Data model -/

/-- One row of the `conversations` table (the fields the dialog engine reads). -/
structure Conversation where
  id : String
  phone_number : String
  user_name : Option String := none
deriving Repr, DecidableEq

/-- The in-memory session object handed to `handleStep`: either a
`bot_sessions` row or the default synthesized by `processMessage`.
Timestamps are milliseconds since the epoch (`Date.now()`). -/
structure Session where
  phone_number : String
  session_data : SessionData
  current_step : String
  expires_at : Int
deriving Repr, DecidableEq

/-- The response descriptor returned by `handleStep`; JS returns records with
per-branch field sets, modelled with optional fields plus the `type` tag
(named `rtype` since `type` is reserved in Lean). -/
structure Response where
  rtype : String
  content : Option String := none
  url : Option String := none
  mediaType : Option String := none
  caption : Option String := none
  header : Option String := none
  body : Option String := none
  buttons : List String := []
  nextStep : String
  sessionData : SessionData
deriving Repr, DecidableEq

/-! ## Generation gateway (`BotHandler.callCustomAPI`) -/

/-- Body of a generation-service reply; each mock endpoint fills exactly one
field, the fallback object fills all three. -/
structure ApiResult where
  imageUrl : Option String := none
  videoUrl : Option String := none
  response : Option String := none
deriving Repr, DecidableEq

/-- Ways the `axios.post` to the generation service can fail: the 30 s
timeout, a transport error, or a non-success HTTP status (axios throws on
non-2xx). -/
inductive ApiFailure where
  | timeout
  | network
  | badStatus (code : Nat)
deriving Repr, DecidableEq

/-- Outcome of the upstream HTTP call made inside `callCustomAPI`. -/
inductive UpstreamResult where
  | success (r : ApiResult)
  | failure (e : ApiFailure)
deriving Repr, DecidableEq

/-- The JSON body posted to a generation service: `{prompt, user}` for
image/video, `{query, user}` for info. -/
structure ApiRequest where
  prompt : Option String := none
  query : Option String := none
  user : String
deriving Repr, DecidableEq

/-- The fixed fallback object returned by `callCustomAPI`'s catch block. -/
def fallbackResult : ApiResult :=
  { imageUrl := some "https://via.placeholder.com/400x400?text=Error+Generating+Image"
    videoUrl := some "https://sample-videos.com/zip/10/mp4/SampleVideo_1280x720_1mb.mp4"
    response := some "Sorry, I could not process your request right now. Please try again later." }

/-- `BotHandler.callCustomAPI(service, data)`: forwards the upstream result on
success; on any error returns the fixed fallback object instead of raising.
The upstream call's outcome is passed in explicitly (`upstream`). -/
def callCustomAPI (service : String) (data : ApiRequest)
    (upstream : UpstreamResult) : ApiResult :=
  match upstream with
  | .success r => r
  | .failure _ => fallbackResult

/-! ## Dialog engine (`BotHandler.handleStep`) -/

/-- `BotHandler.handleStep(session, messageText, conversation)`.  The
generation-service call that the three `_input` branches perform is supplied
as `upstream`. -/
def handleStep (session : Session) (messageText : String)
    (conversation : Conversation) (upstream : UpstreamResult) : Response :=
  let sessionData := session.session_data
  if session.current_step = "welcome" then
    { rtype := "interactive"
      header := some "Welcome! 👋"
      body := some "What would you like to do today?"
      buttons := ["Generate Image", "Generate Video", "Get Information"]
      nextStep := "menu_selection"
      sessionData := sessionData }
  else if session.current_step = "menu_selection" then
    if jsIncludes messageText "Generate Image" ||
        jsIncludes (jsToLowerCase messageText) "image" then
      { rtype := "text"
        content := some "Great! Please describe the image you want me to generate."
        nextStep := "image_input"
        sessionData := objSet sessionData "service" "image" }
    else if jsIncludes messageText "Generate Video" ||
        jsIncludes (jsToLowerCase messageText) "video" then
      { rtype := "text"
        content := some "Awesome! Please describe the video you want me to create."
        nextStep := "video_input"
        sessionData := objSet sessionData "service" "video" }
    else if jsIncludes messageText "Get Information" ||
        jsIncludes (jsToLowerCase messageText) "information" then
      { rtype := "text"
        content := some "What information would you like me to help you find?"
        nextStep := "info_input"
        sessionData := objSet sessionData "service" "info" }
    else
      { rtype := "text"
        content := some "Please select one of the options: Generate Image, Generate Video, or Get Information."
        nextStep := "menu_selection"
        sessionData := sessionData }
  else if session.current_step = "image_input" then
    let imageResult := callCustomAPI "image"
      { prompt := some messageText, user := conversation.phone_number } upstream
    { rtype := "media"
      url := imageResult.imageUrl
      mediaType := some "image"
      caption := some ("Here\x27s your generated image based on: \"" ++ messageText ++ "\"")
      nextStep := "welcome"
      sessionData := [] }
  else if session.current_step = "video_input" then
    let videoResult := callCustomAPI "video"
      { prompt := some messageText, user := conversation.phone_number } upstream
    { rtype := "media"
      url := videoResult.videoUrl
      mediaType := some "video"
      caption := some ("Here\x27s your generated video: \"" ++ messageText ++ "\"")
      nextStep := "welcome"
      sessionData := [] }
  else if session.current_step = "info_input" then
    let infoResult := callCustomAPI "info"
      { query := some messageText, user := conversation.phone_number } upstream
    { rtype := "text"
      content := infoResult.response
      nextStep := "welcome"
      sessionData := [] }
  else
    { rtype := "text"
      content := some "Hi! Type \"start\" to begin or \"menu\" to see options."
      nextStep := "welcome"
      sessionData := [] }

/-! ## Persistence gateway (`DatabaseService` over the `initializeDatabase` schema)

Tables are lists of rows in insertion order.  Postgres accepts an
`INSERT ... ON CONFLICT (cols) ...` only when the table carries a unique or
exclusion constraint on exactly `cols`; otherwise it raises error 42P10
(`there is no unique or exclusion constraint matching the ON CONFLICT
specification`) before touching any data.  The unique column sets below are
the ones `initializeDatabase` actually creates. -/

inductive SqlError where
  /-- Postgres error 42P10. -/
  | noUniqueOrExclusionConstraint
deriving Repr, DecidableEq

/-- Unique indexes on `messages`: the primary key and the `UNIQUE` column
constraint on `message_id`. -/
def messagesUniqueIndexes : List (List String) := [["id"], ["message_id"]]

/-- Unique indexes on `bot_sessions`: only the primary key on `id`;
`idx_sessions_phone` is created as a plain, non-unique index. -/
def botSessionsUniqueIndexes : List (List String) := [["id"]]

/-- Whether an `ON CONFLICT (target)` clause has a matching unique index. -/
def onConflictTargetOk (uniq : List (List String)) (target : List String) : Bool :=
  uniq.contains target

/-- One row of the `messages` table (the columns `saveMessage` writes;
`id`/`timestamp`/`status` defaults are irrelevant to the claims).
`message_id` is nullable, and SQL `NULL` values never conflict with each
other under a unique constraint. -/
structure MessageRow where
  conversation_id : String
  message_id : Option String
  phone_number : String
  message_type : String
  content : Option String
  media_url : Option String
  media_type : Option String
  direction : String
  metadata : String
deriving Repr, DecidableEq

abbrev MessagesTable := List MessageRow

/-- Whether inserting a row with platform id `mid` hits the unique index on
`message_id`. -/
def messageIdConflict (t : MessagesTable) (mid : Option String) : Bool :=
  match mid with
  | none => false
  | some s => t.any (fun r => r.message_id == some s)

/-- The row `saveMessage` writes for the given arguments (the `VALUES` tuple). -/
def mkMessageRow (conversationId : String) (messageId : Option String)
    (phoneNumber messageType : String) (content mediaUrl mediaType : Option String)
    (direction metadata : String) : MessageRow :=
  { conversation_id := conversationId
    message_id := messageId
    phone_number := phoneNumber
    message_type := messageType
    content := content
    media_url := mediaUrl
    media_type := mediaType
    direction := direction
    metadata := metadata }

/-- `DatabaseService.saveMessage(...)`:
`INSERT ... ON CONFLICT (message_id) DO NOTHING RETURNING *`.
On conflict no row is written and `RETURNING` yields nothing, so the JS
caller receives `result.rows[0] === undefined` (modelled as `none`). -/
def saveMessage (t : MessagesTable) (conversationId : String)
    (messageId : Option String) (phoneNumber messageType : String)
    (content mediaUrl mediaType : Option String) (direction : String)
    (metadata : String) :
    Except SqlError (MessagesTable × Option MessageRow) :=
  if onConflictTargetOk messagesUniqueIndexes ["message_id"] then
    let row : MessageRow :=
      mkMessageRow conversationId messageId phoneNumber messageType content
        mediaUrl mediaType direction metadata
    if messageIdConflict t messageId then
      .ok (t, none)
    else
      .ok (t ++ [row], some row)
  else
    .error .noUniqueOrExclusionConstraint

/-- One row of the `bot_sessions` table. -/
structure SessionRow where
  id : Nat
  phone_number : String
  session_data : SessionData
  current_step : String
  expires_at : Int
deriving Repr, DecidableEq

abbrev SessionsTable := List SessionRow

/-- `DatabaseService.saveSession(phoneNumber, sessionData, currentStep,
expiresAt)`: `INSERT INTO bot_sessions ... ON CONFLICT (phone_number) DO
UPDATE SET ...`.  The conflict target `phone_number` has no matching unique
index in the schema, so Postgres rejects the statement (42P10) on every
execution; the branch that would perform the intended upsert is kept for
reference but is unreachable.  `newId` stands for the `gen_random_uuid()`
default of the insert branch. -/
def saveSession (t : SessionsTable) (newId : Nat) (phoneNumber : String)
    (sessionData : SessionData) (currentStep : String) (expiresAt : Int) :
    Except SqlError SessionsTable :=
  if onConflictTargetOk botSessionsUniqueIndexes ["phone_number"] then
    .ok (if t.any (fun r => r.phone_number == phoneNumber) then
      t.map (fun r =>
        if r.phone_number == phoneNumber then
          { r with session_data := sessionData, current_step := currentStep,
                   expires_at := expiresAt }
        else r)
    else
      t ++ [{ id := newId, phone_number := phoneNumber,
              session_data := sessionData, current_step := currentStep,
              expires_at := expiresAt }])
  else
    .error .noUniqueOrExclusionConstraint

/-- `DatabaseService.getSession(phoneNumber)`:
`SELECT * FROM bot_sessions WHERE phone_number = $1 AND expires_at >
CURRENT_TIMESTAMP`, then `result.rows[0]` — the first matching row, or
absent when no row for the user has a strictly-future expiry. -/
def getSession (t : SessionsTable) (now : Int) (phoneNumber : String) :
    Option SessionRow :=
  match t with
  | [] => none
  | r :: rs =>
    if r.phone_number = phoneNumber ∧ now < r.expires_at then some r
    else getSession rs now phoneNumber

/-- The fresh session `processMessage` synthesizes when `getSession` returns
absent: step `welcome`, empty payload, expiry `Date.now() + 30 * 60 * 1000`. -/
def defaultSession (phoneNumber : String) (now : Int) : Session :=
  { phone_number := phoneNumber
    session_data := []
    current_step := "welcome"
    expires_at := now + 30 * 60 * 1000 }

/-- The session `processMessage` hands to `handleStep`: the stored row if
`getSession` found a live one, the default otherwise. -/
def loadedSession (t : SessionsTable) (now : Int) (phoneNumber : String) :
    Session :=
  match getSession t now phoneNumber with
  | some r =>
    { phone_number := r.phone_number
      session_data := r.session_data
      current_step := r.current_step
      expires_at := r.expires_at }
  | none => defaultSession phoneNumber now

/-! ## Outbound platform-message id synthesis

`processMessage` stores outbound messages under the id `` `out_${Date.now()}` ``.
JS renders the integer millisecond timestamp in decimal; we embed that
rendering (`jsNatToString`) with a fuel-structured digit extraction so every
definition evaluates by kernel reduction. -/

/-- The character for decimal digit `d`. -/
def digitChar (d : Nat) : Char :=
  Char.ofNat (48 + d)

/-- Little-endian decimal digits of `n`; `fuel ≥ n` suffices. -/
def decimalDigitsRev : Nat → Nat → List Nat
  | 0, _ => []
  | fuel + 1, n => if n = 0 then [] else n % 10 :: decimalDigitsRev fuel (n / 10)

/-- Value of a little-endian decimal digit list. -/
def undigits : List Nat → Nat
  | [] => 0
  | d :: ds => d + 10 * undigits ds

/-- JS `String(n)` / template-literal rendering of a non-negative integer. -/
def jsNatToString (n : Nat) : String :=
  if n = 0 then "0"
  else String.mk (((decimalDigitsRev n n).reverse).map digitChar)

/-- The caller-synthesized outbound platform message id `` `out_${Date.now()}` ``
for a send observing millisecond timestamp `nowMs`. -/
def synthOutboundId (nowMs : Nat) : String :=
  "out_" ++ jsNatToString nowMs

/-! ## Pipeline orchestrator (`BotHandler.processMessage`)

The claims about the orchestrator quantify over arbitrary success/failure of
each awaited effect, so the orchestrator is embedded parametrically over the
outcome of every external call it makes (store reads/writes, platform sends,
the generation upstream); errors are JS exceptions, modelled by
`Except String`. -/

/-- The outcome of each awaited call `processMessage` makes, in source order. -/
structure Outcomes where
  /-- `DatabaseService.getOrCreateConversation`. -/
  conversationRes : Except String Conversation
  /-- `DatabaseService.saveMessage` for the inbound message. -/
  saveInboundRes : Except String (Option MessageRow)
  /-- `DatabaseService.getSession`. -/
  getSessionRes : Except String (Option Session)
  /-- The generation service call inside `handleStep`, when reached. -/
  upstream : UpstreamResult
  /-- The `WhatsAppService` send of the response. -/
  sendRes : Except String Unit
  /-- `DatabaseService.saveMessage` for the outbound message. -/
  saveOutboundRes : Except String (Option MessageRow)
  /-- `DatabaseService.saveSession`. -/
  saveSessionRes : Except String Unit
  /-- The `WhatsAppService.sendMessage` apology in the catch block. -/
  apologyRes : Except String Unit

/-- The response dispatch: `sendMessage` / `sendMedia` /
`sendInteractiveMessage` according to `response.type`; an unknown type sends
nothing (and hence cannot fail). -/
def dispatchSend (r : Response) (sendRes : Except String Unit) :
    Except String Unit :=
  if r.rtype = "text" ∨ r.rtype = "media" ∨ r.rtype = "interactive" then
    sendRes
  else
    .ok ()

/-- The try-block of `BotHandler.processMessage(phoneNumber, messageText,
messageId, userName)`: steps 1–7 in source order; the first rejected await
aborts the rest. -/
def processMessageCore (phoneNumber messageText messageId : String)
    (userName : Option String) (now : Int) (env : Outcomes) :
    Except String Response := do
  let conversation ← env.conversationRes
  let _ ← env.saveInboundRes
  let sessionOpt ← env.getSessionRes
  let session :=
    match sessionOpt with
    | some s => s
    | none => defaultSession phoneNumber now
  let response := handleStep session messageText conversation env.upstream
  let _ ← dispatchSend response env.sendRes
  let _ ← env.saveOutboundRes
  let _ ← env.saveSessionRes
  pure response

/-- `BotHandler.processMessage`: the try-block above with its catch block,
which logs and then awaits `WhatsAppService.sendMessage(phoneNumber,
'Sorry, I encountered an error. Please try again.')`.  `sendMessage`
rethrows its own failures and the catch block does not guard the apology
call, so a failed apology send rejects `processMessage` itself. -/
def processMessage (phoneNumber messageText messageId : String)
    (userName : Option String) (now : Int) (env : Outcomes) :
    Except String Unit :=
  match processMessageCore phoneNumber messageText messageId userName now env with
  | .ok _ => .ok ()
  | .error _ =>
    match env.apologyRes with
    | .ok _ => .ok ()
    | .error e => .error e

/-! ## Webhook verification handlers -/

/-- `GET /webhook` of the main server: responds `200` with the `hub.challenge`
parameter when `hub.mode === 'subscribe'` and `hub.verify_token` equals the
configured `WEBHOOK_VERIFY_TOKEN`, else `403 Forbidden`.  Absent query
parameters and an unset environment variable are both `undefined` (`none`). -/
def webhookVerify (verifyToken : Option String)
    (mode token challenge : Option String) : Nat × Option String :=
  if mode = some "subscribe" ∧ token = verifyToken then
    (200, challenge)
  else
    (403, some "Forbidden")

/-- JS truthiness of a possibly-absent string. -/
def jsTruthy (o : Option String) : Bool :=
  match o with
  | none => false
  | some s => s ≠ ""

/-- The simple server's verify token:
`process.env.WEBHOOK_VERIFY_TOKEN || 'your_verify_token_here'`. -/
def simpleVerifyToken (env : Option String) : String :=
  match env with
  | some s => if s = "" then "your_verify_token_here" else s
  | none => "your_verify_token_here"

/-- `GET /webhook` of the simple server: the whole check is guarded by
`if (mode && token)` — when either is absent or empty the handler falls
through and sends no response at all (`none`); otherwise it answers `200`
with the challenge on a successful handshake and bare `403` on a failed one. -/
def simpleWebhookVerify (env : Option String)
    (mode token challenge : Option String) : Option (Nat × Option String) :=
  if jsTruthy mode && jsTruthy token then
    if mode = some "subscribe" ∧ token = some (simpleVerifyToken env) then
      some (200, challenge)
    else
      some (403, none)
  else
    none

/-! ## Webhook ingestion (`POST /webhook` of the main server) -/

/-- One message object of an inbound delivery; `textBody` is `message.text?.body`
(`none` when the `text` object or its `body` is absent, e.g. media-only
messages). -/
structure InboundMessage where
  msgFrom : String
  id : String
  textBody : Option String
deriving Repr, DecidableEq

/-- The arguments of one `BotHandler.processMessage` invocation. -/
structure OrchestratorCall where
  phoneNumber : String
  messageText : String
  messageId : String
  userName : Option String
deriving Repr, DecidableEq

/-- The per-message guard of the `messages.forEach` body:
`if (messageText) { await BotHandler.processMessage(...) }` — the
orchestrator is invoked only for a present, non-empty text body. -/
def dispatchMessage (m : InboundMessage) (userName : Option String) :
    Option OrchestratorCall :=
  match m.textBody with
  | none => none
  | some t => if t = "" then none else some ⟨m.msgFrom, t, m.id, userName⟩

/-- All durable state and outward effects a message's pipeline can touch. -/
structure BotState where
  conversations : List Conversation
  messages : MessagesTable
  sessions : SessionsTable
  sentMessages : List (String × String)
deriving Repr, DecidableEq

/-- Effect of one `messages.forEach` iteration on the durable state, for an
arbitrary orchestrator effect `processEffect`: when the guard skips the
message, nothing runs and the state is returned untouched. -/
def webhookHandleMessage (processEffect : OrchestratorCall → BotState → BotState)
    (st : BotState) (m : InboundMessage) (userName : Option String) : BotState :=
  match dispatchMessage m userName with
  | none => st
  | some c => processEffect c st

/-! # Theorems

Sanity evaluations, shared lemmas, and the claim theorems. -/

example :
    (handleStep ⟨"u", [], "welcome", 0⟩ "hi" ⟨"c", "u", none⟩
      (.success {})).rtype = "interactive" := by decide

example :
    (handleStep ⟨"u", [], "menu_selection", 0⟩ "I want an IMAGE and a video"
      ⟨"c", "u", none⟩ (.success {})).nextStep = "image_input" := by decide

example : jsNatToString 0 = "0" := by decide

example : jsNatToString 1700000000123 = "1700000000123" := by decide

/-! ## Shared lemmas -/

theorem messageIdConflict_eq_false {t : MessagesTable} {mid : String}
    (h : ∀ r ∈ t, r.message_id ≠ some mid) :
    messageIdConflict t (some mid) = false := by
  simp only [messageIdConflict, List.any_eq_false]
  intro r hr
  simpa using h r hr

theorem filter_message_id_eq_nil {t : MessagesTable} {mid : String}
    (h : ∀ r ∈ t, r.message_id ≠ some mid) :
    t.filter (fun r => r.message_id == some mid) = [] := by
  induction t with
  | nil => rfl
  | cons a as ih =>
    have ha : (a.message_id == some mid) = false := by
      simpa using h a (by simp)
    simp [List.filter, ha, ih fun r hr => h r (by simp [hr])]

theorem getSession_eq_some {t : SessionsTable} {now : Int} {phone : String}
    {r : SessionRow} (h : getSession t now phone = some r) :
    r ∈ t ∧ r.phone_number = phone ∧ now < r.expires_at := by
  induction t with
  | nil => simp [getSession] at h
  | cons a as ih =>
    rw [getSession] at h
    by_cases hc : a.phone_number = phone ∧ now < a.expires_at
    · rw [if_pos hc] at h
      obtain rfl : a = r := by injection h
      exact ⟨by simp, hc⟩
    · rw [if_neg hc] at h
      obtain ⟨h1, h2, h3⟩ := ih h
      exact ⟨by simp [h1], h2, h3⟩

theorem getSession_eq_none {t : SessionsTable} {now : Int} {phone : String}
    (h : ∀ r ∈ t, r.phone_number = phone → r.expires_at ≤ now) :
    getSession t now phone = none := by
  induction t with
  | nil => rfl
  | cons a as ih =>
    rw [getSession, if_neg, ih fun r hr => h r (by simp [hr])]
    rintro ⟨h1, h2⟩
    exact absurd (h a (by simp) h1) (by omega)

theorem digitChar_inj_lt :
    ∀ d < 10, ∀ e < 10, digitChar d = digitChar e → d = e := by decide

theorem decimalDigitsRev_lt_ten :
    ∀ fuel n, ∀ x ∈ decimalDigitsRev fuel n, x < 10 := by
  intro fuel
  induction fuel with
  | zero => intro n x hx; simp [decimalDigitsRev] at hx
  | succ f ih =>
    intro n x hx
    rw [decimalDigitsRev] at hx
    by_cases hn : n = 0
    · simp [hn] at hx
    · rw [if_neg hn] at hx
      rcases List.mem_cons.mp hx with h | h
      · omega
      · exact ih _ x h

theorem undigits_decimalDigitsRev :
    ∀ fuel n, n ≤ fuel → undigits (decimalDigitsRev fuel n) = n := by
  intro fuel
  induction fuel with
  | zero => intro n hn; interval_cases n; rfl
  | succ f ih =>
    intro n hn
    rw [decimalDigitsRev]
    by_cases h0 : n = 0
    · simp [h0, undigits]
    · rw [if_neg h0, undigits]
      have hdiv : n / 10 ≤ f := by
        have hlt : n / 10 < n :=
          Nat.div_lt_self (Nat.pos_of_ne_zero h0) (by norm_num)
        omega
      rw [ih _ hdiv]
      omega

theorem map_digitChar_inj :
    ∀ l₁ l₂ : List Nat, (∀ x ∈ l₁, x < 10) → (∀ x ∈ l₂, x < 10) →
      l₁.map digitChar = l₂.map digitChar → l₁ = l₂ := by
  intro l₁
  induction l₁ with
  | nil => intro l₂ _ _ h; cases l₂ <;> simp_all
  | cons a as ih =>
    intro l₂ h₁ h₂ h
    cases l₂ with
    | nil => simp at h
    | cons b bs =>
      simp only [List.map_cons, List.cons.injEq] at h
      have hab : a = b :=
        digitChar_inj_lt a (h₁ a (by simp)) b (h₂ b (by simp)) h.1
      have htl : as = bs :=
        ih bs (fun x hx => h₁ x (by simp [hx])) (fun x hx => h₂ x (by simp [hx])) h.2
      rw [hab, htl]

theorem jsNatToString_injective :
    ∀ n m : Nat, jsNatToString n = jsNatToString m → n = m := by
  have key : ∀ n m : Nat, n ≠ 0 → jsNatToString n = jsNatToString m → n ≠ m → False := by
    intro n m hn h hnm
    by_cases hm : m = 0
    · subst hm
      rw [jsNatToString, jsNatToString, if_neg hn, if_pos rfl] at h
      have hdata : ((decimalDigitsRev n n).reverse).map digitChar = ['0'] :=
        congrArg String.data h
      have h0 : ('0' : Char) = digitChar 0 := by decide
      rw [h0, show [digitChar 0] = [0].map digitChar from rfl] at hdata
      have hrev : (decimalDigitsRev n n).reverse = [0] :=
        map_digitChar_inj _ _
          (fun x hx => decimalDigitsRev_lt_ten n n x (List.mem_reverse.mp hx))
          (by simp) hdata
      have hd : decimalDigitsRev n n = [0] := by
        have := congrArg List.reverse hrev
        simpa using this
      have : n = 0 := by
        have hu := undigits_decimalDigitsRev n n le_rfl
        rw [hd] at hu
        simpa [undigits] using hu.symm
      exact hn this
    · rw [jsNatToString, jsNatToString, if_neg hn, if_neg hm] at h
      have hdata : ((decimalDigitsRev n n).reverse).map digitChar =
          ((decimalDigitsRev m m).reverse).map digitChar :=
        congrArg String.data h
      have hrev := map_digitChar_inj _ _
        (fun x hx => decimalDigitsRev_lt_ten n n x (List.mem_reverse.mp hx))
        (fun x hx => decimalDigitsRev_lt_ten m m x (List.mem_reverse.mp hx)) hdata
      have hd : decimalDigitsRev n n = decimalDigitsRev m m :=
        List.reverse_injective hrev
      have hu₁ := undigits_decimalDigitsRev n n le_rfl
      have hu₂ := undigits_decimalDigitsRev m m le_rfl
      rw [hd, hu₂] at hu₁
      exact hnm hu₁.symm
  intro n m h
  by_cases hn : n = 0
  · by_cases hm : m = 0
    · rw [hn, hm]
    · exact absurd (key m n hm h.symm (fun he => hm (he.trans hn))).elim id
  · by_contra hnm
    exact key n m hn h hnm

theorem synthOutboundId_injective :
    ∀ n m : Nat, synthOutboundId n = synthOutboundId m → n = m := by
  intro n m h
  apply jsNatToString_injective
  have hdata : "out_".data ++ (jsNatToString n).data =
      "out_".data ++ (jsNatToString m).data := by
    have h₁ : ∀ s t : String, (s ++ t).data = s.data ++ t.data := by
      intro ⟨a⟩ ⟨b⟩; rfl
    rw [← h₁, ← h₁]
    exact congrArg String.data h
  have := List.append_cancel_left hdata
  cases hjn : jsNatToString n with
  | mk a =>
    cases hjm : jsNatToString m with
    | mk b =>
      rw [hjn, hjm] at this
      simp only at this
      rw [this]

/-! ## Claim C1 -/

/-- C1: the spec says `saveSession` is an upsert keyed by the user identifier
that always leaves exactly one live row; in fact the `bot_sessions` schema
has no unique constraint on `phone_number`, so the `ON CONFLICT
(phone_number)` clause makes Postgres reject every `saveSession` execution
with error 42P10 — the statement never writes or updates any row. -/
theorem C1_saveSession_always_errors (t : SessionsTable) (newId : Nat)
    (phone : String) (sd : SessionData) (step : String) (exp : Int) :
    saveSession t newId phone sd step exp =
      .error .noUniqueOrExclusionConstraint := by
  have h : onConflictTargetOk botSessionsUniqueIndexes ["phone_number"] = false := by
    decide
  rw [saveSession, h]
  simp

/-! ## Claim C2 -/

/-- C2: inserting a message twice with the same platform message id stores
exactly one row: the first call appends the row, the second call hits the
unique index on `message_id`, raises no error, returns the no-op result
(`none`), and leaves the table — in particular the first row — unchanged. -/
theorem C2_saveMessage_idempotent (t : MessagesTable) (mid : String)
    (cid p ty d meta cid2 p2 ty2 d2 meta2 : String)
    (c mu mt c2 mu2 mt2 : Option String)
    (h : ∀ r ∈ t, r.message_id ≠ some mid) :
    saveMessage t cid (some mid) p ty c mu mt d meta =
      .ok (t ++ [mkMessageRow cid (some mid) p ty c mu mt d meta],
           some (mkMessageRow cid (some mid) p ty c mu mt d meta)) ∧
    saveMessage (t ++ [mkMessageRow cid (some mid) p ty c mu mt d meta])
        cid2 (some mid) p2 ty2 c2 mu2 mt2 d2 meta2 =
      .ok (t ++ [mkMessageRow cid (some mid) p ty c mu mt d meta], none) ∧
    (t ++ [mkMessageRow cid (some mid) p ty c mu mt d meta]).filter
        (fun r => r.message_id == some mid) =
      [mkMessageRow cid (some mid) p ty c mu mt d meta] := by
  have hok : onConflictTargetOk messagesUniqueIndexes ["message_id"] = true := by
    decide
  have hc₁ : messageIdConflict t (some mid) = false := messageIdConflict_eq_false h
  have hc₂ : messageIdConflict
      (t ++ [mkMessageRow cid (some mid) p ty c mu mt d meta]) (some mid) = true := by
    simp [messageIdConflict, List.any_append, mkMessageRow]
  refine ⟨?_, ?_, ?_⟩
  · rw [saveMessage, hok]; simp [hc₁]
  · rw [saveMessage, hok]; simp [hc₂]
  · rw [List.filter_append, filter_message_id_eq_nil h]
    simp [mkMessageRow]

/-- C2 witness: a duplicated inbound id on a table already holding an
unrelated message. -/
theorem C2_saveMessage_idempotent_witness :
    saveMessage [mkMessageRow "c0" (some "wamid.OLD") "15550009999" "text"
        (some "earlier") none none "inbound" "\x7b\x7d"]
      "c1" (some "wamid.NEW") "15550001111" "text" (some "hello") none none
      "inbound" "\x7b\x7d" =
      .ok ([mkMessageRow "c0" (some "wamid.OLD") "15550009999" "text"
              (some "earlier") none none "inbound" "\x7b\x7d",
            mkMessageRow "c1" (some "wamid.NEW") "15550001111" "text"
              (some "hello") none none "inbound" "\x7b\x7d"],
           some (mkMessageRow "c1" (some "wamid.NEW") "15550001111" "text"
              (some "hello") none none "inbound" "\x7b\x7d")) ∧
    saveMessage [mkMessageRow "c0" (some "wamid.OLD") "15550009999" "text"
        (some "earlier") none none "inbound" "\x7b\x7d",
        mkMessageRow "c1" (some "wamid.NEW") "15550001111" "text"
          (some "hello") none none "inbound" "\x7b\x7d"]
      "c1" (some "wamid.NEW") "15550001111" "text" (some "hello") none none
      "inbound" "\x7b\x7d" =
      .ok ([mkMessageRow "c0" (some "wamid.OLD") "15550009999" "text"
              (some "earlier") none none "inbound" "\x7b\x7d",
            mkMessageRow "c1" (some "wamid.NEW") "15550001111" "text"
              (some "hello") none none "inbound" "\x7b\x7d"], none) ∧
    ([mkMessageRow "c0" (some "wamid.OLD") "15550009999" "text"
        (some "earlier") none none "inbound" "\x7b\x7d",
      mkMessageRow "c1" (some "wamid.NEW") "15550001111" "text"
        (some "hello") none none "inbound" "\x7b\x7d"]).filter
        (fun r => r.message_id == some "wamid.NEW") =
      [mkMessageRow "c1" (some "wamid.NEW") "15550001111" "text"
        (some "hello") none none "inbound" "\x7b\x7d"] := by
  have := C2_saveMessage_idempotent
    [mkMessageRow "c0" (some "wamid.OLD") "15550009999" "text"
      (some "earlier") none none "inbound" "\x7b\x7d"]
    "wamid.NEW" "c1" "15550001111" "text" "inbound" "\x7b\x7d"
    "c1" "15550001111" "text" "inbound" "\x7b\x7d"
    (some "hello") none none (some "hello") none none
    (by intro r hr; simp [mkMessageRow] at hr; simp [hr])
  simpa using this

/-! ## Claim C3 -/

/-- C3 counterexample: the claim also covers sessions whose step is not one
of the five recognized steps, asserting they get the interactive
button menu with next step `menu_selection`; in fact the `default` case of
`handleStep` returns a plain text reply ("Hi! Type ...") with next step
`welcome`. -/
theorem C3_counterexample :
    (handleStep ⟨"15550001111", [], "profile_edit", 0⟩ "hello"
        ⟨"c1", "15550001111", none⟩ (.success {})).rtype ≠ "interactive" ∧
    handleStep ⟨"15550001111", [], "profile_edit", 0⟩ "hello"
        ⟨"c1", "15550001111", none⟩ (.success {}) =
      { rtype := "text"
        content := some "Hi! Type \"start\" to begin or \"menu\" to see options."
        nextStep := "welcome"
        sessionData := [] } := by
  exact ⟨by decide, by decide⟩

/-- C3 amended: a session in step `welcome` gets the interactive message with
buttons "Generate Image", "Generate Video", "Get Information" and next step
`menu_selection`; a session whose step is not one of the five recognized
steps instead gets a text reply ("Hi! Type \"start\" to begin or \"menu\" to
see options.") with next step `welcome` and cleared payload. -/
theorem C3_amended (s : Session) (text : String) (conv : Conversation)
    (up : UpstreamResult) :
    (s.current_step = "welcome" →
      handleStep s text conv up =
        { rtype := "interactive"
          header := some "Welcome! 👋"
          body := some "What would you like to do today?"
          buttons := ["Generate Image", "Generate Video", "Get Information"]
          nextStep := "menu_selection"
          sessionData := s.session_data }) ∧
    (s.current_step ∉
        (["welcome", "menu_selection", "image_input", "video_input",
          "info_input"] : List String) →
      handleStep s text conv up =
        { rtype := "text"
          content := some "Hi! Type \"start\" to begin or \"menu\" to see options."
          nextStep := "welcome"
          sessionData := [] }) := by
  constructor
  · intro h
    simp [handleStep, h]
  · intro h
    simp only [List.mem_cons, List.not_mem_nil, or_false, not_or] at h
    obtain ⟨h1, h2, h3, h4, h5⟩ := h
    simp [handleStep, h1, h2, h3, h4, h5]

/-- C3 amended witness: an unrecognized step falls through to the default
text reply. -/
theorem C3_amended_witness :
    handleStep ⟨"15550002222", [("service", "image")], "survey", 7⟩ "anything"
        ⟨"c2", "15550002222", some "Alice"⟩ (.success {}) =
      { rtype := "text"
        content := some "Hi! Type \"start\" to begin or \"menu\" to see options."
        nextStep := "welcome"
        sessionData := [] } :=
  (C3_amended ⟨"15550002222", [("service", "image")], "survey", 7⟩ "anything"
    ⟨"c2", "15550002222", some "Alice"⟩ (.success {})).2 (by decide)

/-! ## Claim C4 -/

/-- C4 counterexample: the claim says `processMessage` never raises even when
the apology send fails; but the catch block awaits
`WhatsAppService.sendMessage`, which rethrows its own failure, so when the
pipeline fails (here: the always-failing `saveSession`, error 42P10) and the
apology send also fails, `processMessage` rejects with the apology failure. -/
theorem C4_counterexample :
    processMessage "15550001111" "hi" "wamid.77" none 1700000000000
      { conversationRes := .ok ⟨"c1", "15550001111", none⟩
        saveInboundRes := .ok none
        getSessionRes := .ok none
        upstream := .success {}
        sendRes := .ok ()
        saveOutboundRes := .ok none
        saveSessionRes := .error "42P10: no unique or exclusion constraint matching the ON CONFLICT specification"
        apologyRes := .error "Request failed with status code 401" } =
      .error "Request failed with status code 401" := by
  rfl

/-- C4 amended: any exception from steps 1–7 is caught at the
`processMessage` boundary and one apology send is attempted; when the
pipeline succeeds, or when the apology send succeeds, `processMessage` does
not raise — but if the pipeline fails and the apology send also fails,
`processMessage` raises the apology failure. -/
theorem C4_amended (p t m : String) (u : Option String) (now : Int)
    (env : Outcomes) :
    (env.apologyRes = .ok () → processMessage p t m u now env = .ok ()) ∧
    (∀ r, processMessageCore p t m u now env = .ok r →
      processMessage p t m u now env = .ok ()) ∧
    (∀ e, processMessage p t m u now env = .error e →
      env.apologyRes = .error e ∧
        ∃ e₂, processMessageCore p t m u now env = .error e₂) := by
  cases hc : processMessageCore p t m u now env with
  | ok r =>
    refine ⟨fun _ => ?_, fun _ _ => ?_, fun e he => ?_⟩
    · unfold processMessage; rw [hc]
    · unfold processMessage; rw [hc]
    · unfold processMessage at he; rw [hc] at he; simp at he
  | error e₀ =>
    cases ha : env.apologyRes with
    | ok u' =>
      refine ⟨fun _ => ?_, fun r hr => ?_, fun e he => ?_⟩
      · unfold processMessage; rw [hc, ha]
      · simp at hr
      · unfold processMessage at he; rw [hc, ha] at he; simp at he
    | error ea =>
      refine ⟨fun hok => ?_, fun r hr => ?_, fun e he => ?_⟩
      · simp at hok
      · simp at hr
      · unfold processMessage at he
        rw [hc, ha] at he
        simp only [Except.error.injEq] at he
        subst he
        exact ⟨rfl, e₀, rfl⟩

/-- C4 amended witness: a failing pipeline with a successful apology send
resolves normally. -/
theorem C4_amended_witness :
    processMessage "15550001111" "hi" "wamid.78" (some "Alice") 1700000000000
      { conversationRes := .error "ECONNREFUSED"
        saveInboundRes := .ok none
        getSessionRes := .ok none
        upstream := .success {}
        sendRes := .ok ()
        saveOutboundRes := .ok none
        saveSessionRes := .ok ()
        apologyRes := .ok () } = .ok () :=
  (C4_amended "15550001111" "hi" "wamid.78" (some "Alice") 1700000000000
    { conversationRes := .error "ECONNREFUSED"
      saveInboundRes := .ok none
      getSessionRes := .ok none
      upstream := .success {}
      sendRes := .ok ()
      saveOutboundRes := .ok none
      saveSessionRes := .ok ()
      apologyRes := .ok () }).1 rfl

/-! ## Claim C5 -/

/-- C5: in step `menu_selection` each branch tests the case-sensitive button
title or the case-insensitive bare keyword, in the fixed order Image, Video,
Information, first match winning; the image branch moves to `image_input`
tagging the payload `service=image` (likewise video/info), and when nothing
matches the step stays `menu_selection` with the payload untouched and a
text reply asking for a valid option. -/
theorem C5_menu_selection_matching (sd : SessionData) (text phone : String)
    (exp : Int) (conv : Conversation) (up : UpstreamResult) :
    ((jsIncludes text "Generate Image" ||
        jsIncludes (jsToLowerCase text) "image") = true →
      handleStep ⟨phone, sd, "menu_selection", exp⟩ text conv up =
        { rtype := "text"
          content := some "Great! Please describe the image you want me to generate."
          nextStep := "image_input"
          sessionData := objSet sd "service" "image" }) ∧
    ((jsIncludes text "Generate Image" ||
        jsIncludes (jsToLowerCase text) "image") = false →
      (jsIncludes text "Generate Video" ||
        jsIncludes (jsToLowerCase text) "video") = true →
      handleStep ⟨phone, sd, "menu_selection", exp⟩ text conv up =
        { rtype := "text"
          content := some "Awesome! Please describe the video you want me to create."
          nextStep := "video_input"
          sessionData := objSet sd "service" "video" }) ∧
    ((jsIncludes text "Generate Image" ||
        jsIncludes (jsToLowerCase text) "image") = false →
      (jsIncludes text "Generate Video" ||
        jsIncludes (jsToLowerCase text) "video") = false →
      (jsIncludes text "Get Information" ||
        jsIncludes (jsToLowerCase text) "information") = true →
      handleStep ⟨phone, sd, "menu_selection", exp⟩ text conv up =
        { rtype := "text"
          content := some "What information would you like me to help you find?"
          nextStep := "info_input"
          sessionData := objSet sd "service" "info" }) ∧
    ((jsIncludes text "Generate Image" ||
        jsIncludes (jsToLowerCase text) "image") = false →
      (jsIncludes text "Generate Video" ||
        jsIncludes (jsToLowerCase text) "video") = false →
      (jsIncludes text "Get Information" ||
        jsIncludes (jsToLowerCase text) "information") = false →
      handleStep ⟨phone, sd, "menu_selection", exp⟩ text conv up =
        { rtype := "text"
          content := some "Please select one of the options: Generate Image, Generate Video, or Get Information."
          nextStep := "menu_selection"
          sessionData := sd }) := by
  refine ⟨fun h₁ => ?_, fun h₁ h₂ => ?_, fun h₁ h₂ h₃ => ?_, fun h₁ h₂ h₃ => ?_⟩
  · simp [handleStep, h₁]
  · simp [handleStep, h₁, h₂]
  · simp [handleStep, h₁, h₂, h₃]
  · simp [handleStep, h₁, h₂, h₃]

/-- C5 witness: a text containing both "image" and "video" selects the image
branch (fixed checking order, first match wins); the keyword match is
case-insensitive. -/
theorem C5_menu_selection_matching_witness :
    handleStep ⟨"15550001111", [("k", "v")], "menu_selection", 9⟩
        "An IMAGE and a video please" ⟨"c1", "15550001111", none⟩
        (.success {}) =
      { rtype := "text"
        content := some "Great! Please describe the image you want me to generate."
        nextStep := "image_input"
        sessionData := [("k", "v"), ("service", "image")] } :=
  (C5_menu_selection_matching [("k", "v")] "An IMAGE and a video please"
    "15550001111" 9 ⟨"c1", "15550001111", none⟩ (.success {})).1 (by decide)

/-! ## Claim C6 -/

/-- C6: when the generation upstream call times out, fails, or returns a
non-success status, `callCustomAPI` raises nothing and returns the fixed
fallback object, and `handleStep` in `image_input`/`video_input`/`info_input`
still returns a well-formed response descriptor built from the per-kind
fallback value (placeholder image URL / placeholder video URL / apology
text), transitioning to `welcome` with cleared payload. -/
theorem C6_generation_fallback (e : ApiFailure) (svc : String)
    (data : ApiRequest) (sd : SessionData) (text phone : String) (exp : Int)
    (conv : Conversation) :
    callCustomAPI svc data (.failure e) = fallbackResult ∧
    handleStep ⟨phone, sd, "image_input", exp⟩ text conv (.failure e) =
      { rtype := "media"
        url := fallbackResult.imageUrl
        mediaType := some "image"
        caption := some ("Here\x27s your generated image based on: \"" ++ text ++ "\"")
        nextStep := "welcome"
        sessionData := [] } ∧
    handleStep ⟨phone, sd, "video_input", exp⟩ text conv (.failure e) =
      { rtype := "media"
        url := fallbackResult.videoUrl
        mediaType := some "video"
        caption := some ("Here\x27s your generated video: \"" ++ text ++ "\"")
        nextStep := "welcome"
        sessionData := [] } ∧
    handleStep ⟨phone, sd, "info_input", exp⟩ text conv (.failure e) =
      { rtype := "text"
        content := fallbackResult.response
        nextStep := "welcome"
        sessionData := [] } := by
  refine ⟨rfl, ?_, ?_, ?_⟩ <;> simp [handleStep, callCustomAPI]

/-! ## Claim C7 -/

/-- C7: `getSession` returns a stored row only when it belongs to the user
and its expiry is strictly in the future; when every row for the user is
expired (or none exists) it returns absent, and `processMessage` then
proceeds with the fresh default session: step `welcome`, empty payload,
expiry `now + 30` minutes. -/
theorem C7_session_expiry (t : SessionsTable) (now : Int) (phone : String) :
    (∀ r, getSession t now phone = some r →
      r ∈ t ∧ r.phone_number = phone ∧ now < r.expires_at) ∧
    ((∀ r ∈ t, r.phone_number = phone → r.expires_at ≤ now) →
      getSession t now phone = none ∧
      loadedSession t now phone =
        { phone_number := phone
          session_data := []
          current_step := "welcome"
          expires_at := now + 30 * 60 * 1000 }) := by
  refine ⟨fun r h => getSession_eq_some h, fun h => ?_⟩
  have hnone := getSession_eq_none h
  exact ⟨hnone, by rw [loadedSession, hnone]; rfl⟩

/-- C7 witness: a stored but expired session row is ignored and the default
`welcome` session is synthesized. -/
theorem C7_session_expiry_witness :
    getSession [⟨7, "15550001111", [("service", "image")], "image_input", 1700000000000⟩]
        1700000100000 "15550001111" = none ∧
    loadedSession [⟨7, "15550001111", [("service", "image")], "image_input", 1700000000000⟩]
        1700000100000 "15550001111" =
      { phone_number := "15550001111"
        session_data := []
        current_step := "welcome"
        expires_at := 1700000100000 + 30 * 60 * 1000 } :=
  (C7_session_expiry
    [⟨7, "15550001111", [("service", "image")], "image_input", 1700000000000⟩]
    1700000100000 "15550001111").2 (by decide)

/-! ## Claim C8 -/

/-- C8 counterexample: the claim says every non-(subscribe ∧ correct-token)
verification request gets HTTP 403; the simple server's handler, however, is
wrapped in `if (mode && token)` and sends no response at all when `hub.mode`
is absent — here the token is correct but the handler answers neither 200
nor 403. -/
theorem C8_counterexample :
    simpleWebhookVerify (some "secrettoken") none (some "secrettoken")
      (some "12345") = none := by
  rfl

/-- C8 amended: the main server's handler answers 200 with the challenge
exactly when `hub.mode = "subscribe"` and the supplied token equals the
configured verify token, and 403 in every other case; the simple server's
handler behaves that way only when both `hub.mode` and `hub.verify_token`
are present and non-empty — otherwise it sends no response at all. -/
theorem C8_amended (vt env : Option String)
    (mode token challenge : Option String) :
    ((webhookVerify vt mode token challenge = (200, challenge)) ↔
      (mode = some "subscribe" ∧ token = vt)) ∧
    (¬(mode = some "subscribe" ∧ token = vt) →
      webhookVerify vt mode token challenge = (403, some "Forbidden")) ∧
    ((jsTruthy mode && jsTruthy token) = true →
      ((simpleWebhookVerify env mode token challenge = some (200, challenge)) ↔
        (mode = some "subscribe" ∧ token = some (simpleVerifyToken env))) ∧
      (¬(mode = some "subscribe" ∧ token = some (simpleVerifyToken env)) →
        simpleWebhookVerify env mode token challenge = some (403, none))) ∧
    ((jsTruthy mode && jsTruthy token) = false →
      simpleWebhookVerify env mode token challenge = none) := by
  refine ⟨?_, ?_, fun ht => ⟨?_, ?_⟩, fun ht => ?_⟩
  · constructor
    · intro h
      by_contra hc
      rw [webhookVerify, if_neg hc] at h
      simp at h
    · intro h
      rw [webhookVerify, if_pos h]
  · intro h
    rw [webhookVerify, if_neg h]
  · constructor
    · intro h
      by_contra hc
      rw [simpleWebhookVerify, ht, if_pos rfl, if_neg hc] at h
      simp at h
    · intro h
      rw [simpleWebhookVerify, ht, if_pos rfl, if_pos h]
  · intro h
    rw [simpleWebhookVerify, ht, if_pos rfl, if_neg h]
  · rw [simpleWebhookVerify, ht]
    simp

/-- C8 amended witness: a correct handshake answered 200/challenge by both
handlers, and a wrong token answered 403 by the main handler. -/
theorem C8_amended_witness :
    webhookVerify (some "tok123") (some "subscribe") (some "tok123")
      (some "12345") = (200, some "12345") ∧
    simpleWebhookVerify (some "tok123") (some "subscribe") (some "tok123")
      (some "12345") = some (200, some "12345") ∧
    webhookVerify (some "tok123") (some "subscribe") (some "WRONG")
      (some "12345") = (403, some "Forbidden") :=
  ⟨((C8_amended (some "tok123") (some "tok123") (some "subscribe")
      (some "tok123") (some "12345")).1).mpr ⟨rfl, rfl⟩,
   (((C8_amended (some "tok123") (some "tok123") (some "subscribe")
      (some "tok123") (some "12345")).2.2.1 (by decide)).1).mpr
     ⟨rfl, by decide⟩,
   (C8_amended (some "tok123") (some "tok123") (some "subscribe")
      (some "WRONG") (some "12345")).2.1 (by decide)⟩

/-! ## Claim C9 -/

/-- C9 counterexample: the synthesized outbound id is `out_` followed by the
millisecond timestamp alone, so two distinct sends (different users) that
observe the same `Date.now()` value get the same id, and the second outbound
row is absorbed by the idempotent insert instead of being stored. -/
theorem C9_counterexample :
    ("15550001111" : String) ≠ "15550002222" ∧
    synthOutboundId 1700000000123 = synthOutboundId 1700000000123 ∧
    saveMessage
      [mkMessageRow "c1" (some (synthOutboundId 1700000000123)) "15550001111"
        "text" (some "Hello!") none none "outbound" "\x7b\x7d"]
      "c2" (some (synthOutboundId 1700000000123)) "15550002222" "text"
      (some "Hi there!") none none "outbound" "\x7b\x7d" =
      .ok ([mkMessageRow "c1" (some (synthOutboundId 1700000000123))
              "15550001111" "text" (some "Hello!") none none "outbound"
              "\x7b\x7d"], none) := by
  exact ⟨by decide, rfl, rfl⟩

/-- C9 amended: outbound ids are unique across sends that observe distinct
millisecond timestamps — `out_` followed by the decimal rendering of
`Date.now()` is injective in the timestamp — but sends within the same
millisecond collide (see the counterexample). -/
theorem C9_amended (t₁ t₂ : Nat) (h : t₁ ≠ t₂) :
    synthOutboundId t₁ ≠ synthOutboundId t₂ :=
  fun he => h (synthOutboundId_injective t₁ t₂ he)

/-- C9 amended witness: consecutive milliseconds give distinct ids. -/
theorem C9_amended_witness :
    synthOutboundId 1700000000123 ≠ synthOutboundId 1700000000124 :=
  C9_amended 1700000000123 1700000000124 (by decide)

/-! ## Claim C10 -/

/-- C10: a webhook message whose text body is absent or empty is never
dispatched to the orchestrator — `dispatchMessage` yields no call, so
whatever effect the orchestrator would have on conversations, messages,
sessions or outbound sends, the state after handling the message is exactly
the state before. -/
theorem C10_media_only_skipped (m : InboundMessage) (un : Option String)
    (h : m.textBody = none ∨ m.textBody = some "") :
    dispatchMessage m un = none ∧
    ∀ (processEffect : OrchestratorCall → BotState → BotState) (st : BotState),
      webhookHandleMessage processEffect st m un = st := by
  have hd : dispatchMessage m un = none := by
    rcases h with h | h <;> simp [dispatchMessage, h]
  exact ⟨hd, fun processEffect st => by rw [webhookHandleMessage, hd]⟩

/-- C10 witness: a media-only message (no text body) leaves a non-empty
state untouched even under an orchestrator effect that records every call. -/
theorem C10_media_only_skipped_witness :
    dispatchMessage ⟨"15550001111", "wamid.IMG", none⟩ (some "Alice") = none ∧
    webhookHandleMessage
      (fun c st => { st with sentMessages := (c.phoneNumber, c.messageText) :: st.sentMessages })
      ⟨[⟨"c1", "15550001111", none⟩], [], [], [("15550009999", "earlier")]⟩
      ⟨"15550001111", "wamid.IMG", none⟩ (some "Alice") =
      ⟨[⟨"c1", "15550001111", none⟩], [], [], [("15550009999", "earlier")]⟩ :=
  ⟨(C10_media_only_skipped ⟨"15550001111", "wamid.IMG", none⟩ (some "Alice")
      (Or.inl rfl)).1,
   (C10_media_only_skipped ⟨"15550001111", "wamid.IMG", none⟩ (some "Alice")
      (Or.inl rfl)).2
     (fun c st => { st with sentMessages := (c.phoneNumber, c.messageText) :: st.sentMessages })
     ⟨[⟨"c1", "15550001111", none⟩], [], [], [("15550009999", "earlier")]⟩⟩

end Chatbot
